import Mathlib

/-!
Verification of the market-flow valuation engine.

This file shallowly embeds the computational core of the repository
(`market_flow.models.dcf_model`, `market_flow.models.cbcv_model`,
`market_flow.agents.boss_agent`, `market_flow.workflows.agents_workflow`)
into Lean 4 and proves the specified properties about it.

Modelling conventions:
* Python floats are modelled as rationals (`ℚ`): the arithmetic of the source
  is taken at its exact mathematical value.
* Python `int(x)` (truncation toward zero) is `pyInt`; Python `round(x, 2)`
  is `round2` (decimal round-half-to-even).
* Fallible Python code (raising `ValueError`, `ZeroDivisionError`,
  `IndexError`) is modelled in the `Except PyErr` monad; a Python statement
  that can raise is translated to a monadic step that can return the
  corresponding error.
* Network / LLM calls (`fmp_client`, the Anthropic client) are not part of
  the embedded computations; functions that consume already-fetched values
  take those values as explicit parameters, and `json.loads` is an abstract
  parameter of the parse step.
-/

/-- The Python exceptions the embedded code can raise. -/
inductive PyErr where
  /-- `ZeroDivisionError` -/
  | zeroDivision
  /-- `ValueError` (the messages are not modelled) -/
  | valueError
  /-- `IndexError` -/
  | indexError
deriving DecidableEq, Repr

/-- Python's true division `a / b`, which raises `ZeroDivisionError` when the
divisor is zero (also for floats, unlike IEEE arithmetic). -/
def pydiv (a b : ℚ) : Except PyErr ℚ :=
  if b = 0 then .error .zeroDivision else .ok (a / b)

/-- Python's `int(x)` on a float: truncation toward zero. -/
def pyInt (q : ℚ) : ℤ :=
  if 0 ≤ q then ⌊q⌋ else ⌈q⌉

/-- Python's `round(x, 2)`, modelled as decimal round-half-to-even at two
decimal places. -/
def round2 (q : ℚ) : ℚ :=
  let s := q * 100
  let f := ⌊s⌋
  let frac := s - (f : ℚ)
  let r : ℤ :=
    if frac < 1/2 then f
    else if 1/2 < frac then f + 1
    else if f % 2 = 0 then f else f + 1
  (r : ℚ) / 100

/-! ## `dcf_model.calculate_wacc` (dcf_model.py lines 84-146) -/

/-- The dict returned by `calculate_wacc`. -/
structure WaccResult where
  wacc : ℚ
  cost_of_equity : ℚ
  cost_of_debt : ℚ
  after_tax_cost_of_debt : ℚ
  tax_rate : ℚ
  debt_weight : ℚ
  equity_weight : ℚ
  beta : ℚ
  risk_free_rate : ℚ
  market_premium : ℚ
deriving DecidableEq, Repr

/-- `calculate_wacc`.  `ttm_debt_to_capital` stands for the result of the
external `get_ratios_ttm(ticker)["debtToCapitalRatioTTM"]` lookup used when
`debt_ratio` is `None`: `none` covers "no ticker given", "fetch failed" and
"value missing or None", all of which fall back to the documented `0.3`
constant (source lines 109-121). -/
def calculate_wacc (beta risk_free_rate market_premium : ℚ) (debt_ratio : Option ℚ)
    (cost_of_debt tax_rate : ℚ) (ttm_debt_to_capital : Option ℚ) : WaccResult :=
  let dr : ℚ :=
    match debt_ratio with
    | some d => d
    | none => ttm_debt_to_capital.getD (3/10)
  let cost_of_equity := risk_free_rate + beta * market_premium
  let equity_ratio := 1 - dr
  let after_tax_cost_of_debt := cost_of_debt * (1 - tax_rate)
  let wacc := equity_ratio * cost_of_equity + dr * after_tax_cost_of_debt
  { wacc := wacc
    cost_of_equity := cost_of_equity
    cost_of_debt := cost_of_debt
    after_tax_cost_of_debt := after_tax_cost_of_debt
    tax_rate := tax_rate
    debt_weight := dr
    equity_weight := equity_ratio
    beta := beta
    risk_free_rate := risk_free_rate
    market_premium := market_premium }

/-! ## `dcf_model.project_free_cash_flows` (dcf_model.py lines 149-181) -/

/-- The `growth_rates` argument is either a single number or a per-year list
(Python's dynamic `list[float] | float`). -/
inductive GrowthRates where
  | single (r : ℚ)
  | ofList (rs : List ℚ)

/-- The effective per-year rate schedule (source lines 165-172): a single rate
is broadcast over `years` entries; a list shorter than `years` is extended by
repeating its last element (`growth_rates[-1]`, an `IndexError` on an empty
list). -/
def growthSchedule : GrowthRates → ℕ → Except PyErr (List ℚ)
  | .single r, years => .ok (List.replicate years r)
  | .ofList rs, years =>
      if rs.length < years then
        match rs.getLast? with
        | none => .error .indexError
        | some last => .ok (rs ++ List.replicate (years - rs.length) last)
      else .ok rs

/-- The projection loop (source lines 174-179): `years` iterations, each
compounding from the previous value and consuming the next rate.  The
schedule always has at least `years` entries when this is called. -/
def projLoop (cur : ℚ) : ℕ → List ℚ → List ℚ
  | 0, _ => []
  | _ + 1, [] => []
  | n + 1, r :: rs =>
      let c := cur * (1 + r)
      c :: projLoop c n rs

/-- `project_free_cash_flows`. -/
def project_free_cash_flows (base_fcf : ℚ) (growth_rates : GrowthRates) (years : ℕ) :
    Except PyErr (List ℚ) := do
  let rates ← growthSchedule growth_rates years
  .ok (projLoop base_fcf years rates)

/-! ## `dcf_model.calculate_terminal_value` (dcf_model.py lines 184-205) -/

/-- Gordon-growth terminal value.  Raises `ValueError` when
`wacc <= perpetual_growth`, otherwise returns
`final_fcf * (1 + perpetual_growth) / (wacc - perpetual_growth)`. -/
def calculate_terminal_value (final_fcf perpetual_growth wacc : ℚ) : Except PyErr ℚ :=
  if wacc ≤ perpetual_growth then
    .error .valueError
  else
    .ok (final_fcf * (1 + perpetual_growth) / (wacc - perpetual_growth))

/-! ## `dcf_model.calculate_intrinsic_value` (dcf_model.py lines 208-253) -/

/-- The dict returned by `calculate_intrinsic_value`. -/
structure IntrinsicValue where
  pv_fcfs : List ℚ
  pv_terminal_value : ℚ
  enterprise_value : ℚ
  equity_value : ℚ
  intrinsic_value_per_share : ℚ
deriving DecidableEq, Repr

/-- The discounting loop of `calculate_intrinsic_value` (source lines
229-232): `fcf / (1 + wacc) ** (i + 1)` for the 0-indexed position `i`. -/
def discountLoop (wacc : ℚ) : List ℚ → ℕ → Except PyErr (List ℚ)
  | [], _ => .ok []
  | fcf :: rest, i => do
      let pv ← pydiv fcf ((1 + wacc) ^ (i + 1))
      let tail ← discountLoop wacc rest (i + 1)
      .ok (pv :: tail)

/-- `calculate_intrinsic_value`. -/
def calculate_intrinsic_value (projected_fcfs : List ℚ)
    (terminal_value wacc shares_outstanding net_debt : ℚ) : Except PyErr IntrinsicValue := do
  let pv_fcfs ← discountLoop wacc projected_fcfs 0
  let pv_terminal ← pydiv terminal_value ((1 + wacc) ^ projected_fcfs.length)
  let enterprise_value := pv_fcfs.sum + pv_terminal
  let equity_value := enterprise_value - net_debt
  let per_share ← pydiv equity_value shares_outstanding
  .ok { pv_fcfs := pv_fcfs
        pv_terminal_value := pv_terminal
        enterprise_value := enterprise_value
        equity_value := equity_value
        intrinsic_value_per_share := per_share }

/-! ## `dcf_model.build_dcf_model`, computational core (dcf_model.py lines 373-450)

The data-fetching part of `build_dcf_model` (lines 295-371) extracts plain
numbers from API payloads; the embedded core takes those extracted numbers as
`DcfInputs` and performs the model computation exactly as lines 373-450 do. -/

structure DcfInputs where
  base_fcf : ℚ
  growth_rate : ℚ
  wacc : ℚ
  terminal_growth_rate : ℚ
  shares_outstanding : ℚ
  net_debt : ℚ
  current_price : ℚ
  projection_years : ℕ
deriving DecidableEq, Repr

/-- The fields of `DCFResult` computed by the core (identification fields and
pass-throughs of the inputs are omitted). -/
structure DcfCore where
  intrinsic_value : ℚ
  upside_percentage : ℚ
  projected_fcfs : List ℚ
  terminal_value : ℚ
  enterprise_value : ℚ
  sensitivity_matrix : List (List ℚ)
deriving DecidableEq, Repr

/-- One cell of the sensitivity grid (source lines 408-414): terminal value at
`(w, g)`, then intrinsic value, rounded to two decimals. -/
def sensCell (projected : List ℚ) (last shares net_debt w g : ℚ) : Except PyErr ℚ := do
  let tv ← calculate_terminal_value last g w
  let v ← calculate_intrinsic_value projected tv w shares net_debt
  .ok (round2 v.intrinsic_value_per_share)

/-- The inner loop over the growth range for one grid WACC value. -/
def sensRow (projected : List ℚ) (last shares net_debt w : ℚ) :
    List ℚ → Except PyErr (List ℚ)
  | [] => .ok []
  | g :: gs => do
      let c ← sensCell projected last shares net_debt w g
      let rest ← sensRow projected last shares net_debt w gs
      .ok (c :: rest)

/-- The outer loop over the WACC range (source lines 404-414). -/
def sensGrid (projected : List ℚ) (last shares net_debt : ℚ) (growthRange : List ℚ) :
    List ℚ → Except PyErr (List (List ℚ))
  | [] => .ok []
  | w :: ws => do
      let row ← sensRow projected last shares net_debt w growthRange
      let rest ← sensGrid projected last shares net_debt growthRange ws
      .ok (row :: rest)

/-- The computational core of `build_dcf_model` (lines 373-450): projection,
terminal value, intrinsic value, upside, and the 3x3 sensitivity grid over
WACC plus or minus two percentage points crossed with terminal growth plus or
minus one percentage point. -/
def build_dcf_model_core (inp : DcfInputs) : Except PyErr DcfCore := do
  let projected ← project_free_cash_flows inp.base_fcf (.single inp.growth_rate)
      inp.projection_years
  let last ← match projected.getLast? with
    | some v => Except.ok v
    | none => Except.error PyErr.indexError
  let tv ← calculate_terminal_value last inp.terminal_growth_rate inp.wacc
  let val ← calculate_intrinsic_value projected tv inp.wacc inp.shares_outstanding
      inp.net_debt
  let intrinsic := val.intrinsic_value_per_share
  let upside := if 0 < inp.current_price then
      (intrinsic - inp.current_price) / inp.current_price * 100 else 0
  let waccRange := [inp.wacc - 1/50, inp.wacc, inp.wacc + 1/50]
  let growthRange := [inp.terminal_growth_rate - 1/100, inp.terminal_growth_rate,
      inp.terminal_growth_rate + 1/100]
  let grid ← sensGrid projected last inp.shares_outstanding inp.net_debt growthRange
      waccRange
  .ok { intrinsic_value := intrinsic
        upside_percentage := upside
        projected_fcfs := projected
        terminal_value := tv
        enterprise_value := val.enterprise_value
        sensitivity_matrix := grid }

/-! ## `cbcv_model` core calculations (cbcv_model.py lines 263-458) -/

/-- `calculate_clv` (lines 263-292).  The single division can raise
`ZeroDivisionError` when `1 + discount_rate - retention_rate = 0`. -/
def calculate_clv (arpu gross_margin retention_rate discount_rate : ℚ) :
    Except PyErr ℚ := do
  let retention := if 1 ≤ retention_rate then 99/100 else retention_rate
  let margin_contribution := arpu * gross_margin
  let multiplier ← pydiv retention (1 + discount_rate - retention)
  .ok (margin_contribution * multiplier)

/-- `calculate_cac` (lines 295-313). -/
def calculate_cac (sales_marketing_expense : ℚ) (new_customers : ℤ) : ℚ :=
  if new_customers ≤ 0 then 0
  else sales_marketing_expense / (new_customers : ℚ)

/-- `calculate_payback_months` (lines 316-338); `none` stands for
`float("inf")`. -/
def calculate_payback_months (cac arpu gross_margin : ℚ) : Option ℚ :=
  let monthly_contribution := arpu * gross_margin / 12
  if monthly_contribution ≤ 0 then none
  else some (cac / monthly_contribution)

/-- `calculate_existing_customer_equity` (lines 341-357). -/
def calculate_existing_customer_equity (total_customers : ℤ) (clv : ℚ) : ℚ :=
  (total_customers : ℚ) * clv

/-- Python truthiness of an `int | None` value (`if tam:` is false for both
`None` and `0`). -/
def pyTruthyInt : Option ℤ → Bool
  | none => false
  | some v => v != 0

/-- The projection loop of `calculate_future_customer_equity` (lines 402-423),
with the loop state (`year`, `cumulative_customers`, `current_acquisition`,
running `total_future_equity`) passed explicitly; the first argument is the
number of remaining iterations (`projection_years - (year - 1)`).
`vpc` is `value_per_new_customer = clv - cac`. -/
def fceLoop (vpc discount_rate decay : ℚ) (tam : Option ℤ) :
    ℕ → ℕ → ℤ → ℤ → ℚ → Except PyErr (ℚ × List ℤ)
  | 0, _, _, _, acc => .ok (acc, [])
  | n + 1, year, cumulative, current, acc =>
      let current : ℤ :=
        if pyTruthyInt tam && decide (tam.getD 0 ≤ cumulative) then 0 else current
      let ya := pyInt ((current : ℚ) * (1 - decay) ^ (year - 1))
      let ya := if pyTruthyInt tam then max 0 (min ya (tam.getD 0 - cumulative)) else ya
      do
        let pv ← pydiv ((ya : ℚ) * vpc) ((1 + discount_rate) ^ year)
        let (total, rest) ← fceLoop vpc discount_rate decay tam n (year + 1)
            (cumulative + ya) ya (acc + pv)
        .ok (total, ya :: rest)

/-- `calculate_future_customer_equity` (lines 360-425), returning the pair
`(total_future_equity, projected_acquisitions)`. -/
def calculate_future_customer_equity (annual_new_customers : ℤ) (clv cac discount_rate : ℚ)
    (projection_years : ℕ) (acquisition_decay : ℚ) (tam : Option ℤ)
    (current_customers : ℤ) : Except PyErr (ℚ × List ℤ) :=
  if clv ≤ cac then .ok (0, List.replicate projection_years 0)
  else
    fceLoop (clv - cac) discount_rate acquisition_decay tam projection_years 1
      current_customers annual_new_customers 0

/-- Retention deltas of `build_sensitivity_matrix` (line 441). -/
def retentionVariations : List ℚ := [-(1/20), -(1/40), 0, 1/40, 1/20]

/-- ARPU deltas of `build_sensitivity_matrix` (line 442). -/
def arpuVariations : List ℚ := [-(1/5), -(1/10), 0, 1/10, 1/5]

/-- The inner (ARPU) loop of `build_sensitivity_matrix` (lines 451-456). -/
def sensRetentionRow (arpu gross_margin test_retention discount_rate : ℚ) :
    List ℚ → Except PyErr (List ℚ)
  | [] => .ok []
  | delta :: rest => do
      let clv ← calculate_clv (arpu * (1 + delta)) gross_margin test_retention
          discount_rate
      let tail ← sensRetentionRow arpu gross_margin test_retention discount_rate rest
      .ok (round2 clv :: tail)

/-- The outer (retention) loop of `build_sensitivity_matrix` (lines 446-456). -/
def cbcvSensGrid (arpu gross_margin base_retention discount_rate : ℚ) :
    List ℚ → Except PyErr (List (List ℚ))
  | [] => .ok []
  | rd :: rest => do
      let test_retention := min (99/100) (max (1/2) (base_retention + rd))
      let row ← sensRetentionRow arpu gross_margin test_retention discount_rate
          arpuVariations
      let tail ← cbcvSensGrid arpu gross_margin base_retention discount_rate rest
      .ok (row :: tail)

/-- `build_sensitivity_matrix` (lines 428-458); `base_clv` is accepted and
unused exactly as in the source. -/
def build_sensitivity_matrix (base_clv arpu gross_margin base_retention discount_rate : ℚ) :
    Except PyErr (List (List ℚ)) :=
  cbcvSensGrid arpu gross_margin base_retention discount_rate retentionVariations

/-- The customer-projection loop of `build_cbcv_model` (lines 586-592):
`new_total = int(prev * retention) + acq` for each projected acquisition. -/
def projectCustomers (retention_rate : ℚ) : ℤ → List ℤ → List ℤ
  | _, [] => []
  | prev, acq :: rest =>
      let new_total := pyInt ((prev : ℚ) * retention_rate) + acq
      new_total :: projectCustomers retention_rate new_total rest

/-! ## `cbcv_model.build_cbcv_model`, computational core (cbcv_model.py lines 465-643)

`get_cbcv_financial_inputs` (lines 185-256) only extracts plain numbers from
API payloads; the embedded core takes that extracted record as
`CbcvFinancialInputs`, and the industry churn benchmark
(`get_churn_rate_benchmark(ticker)`, a pure table lookup on the ticker) as a
parameter. -/

structure CbcvFinancialInputs where
  revenue : ℚ
  gross_margin : ℚ
  sm_expense : ℚ
  shares_outstanding : ℚ
  current_price : ℚ
  net_debt : ℚ
  market_cap : ℚ
  wacc : ℚ
deriving DecidableEq, Repr

/-- The fields of `CBCVResult` computed by the core (identification fields and
pass-throughs of the inputs are omitted).  `arpu_source_calculated`,
`churn_source_benchmark` and `cac_source_calculated` are the Boolean contents
of the corresponding `assumptions` string entries. -/
structure CbcvCore where
  arpu : ℚ
  churn_rate : ℚ
  retention_rate : ℚ
  cac : ℚ
  clv : ℚ
  ltv_cac_ratio : Option ℚ
  payback_months : Option ℚ
  existing_customer_equity : ℚ
  future_customer_equity : ℚ
  total_customer_equity : ℚ
  enterprise_value : ℚ
  equity_value : ℚ
  intrinsic_value_per_share : ℚ
  upside_percentage : ℚ
  projected_customers : List ℤ
  projected_revenue : List ℚ
  projected_acquisition : List ℤ
  sensitivity_matrix : List (List ℚ)
  arpu_source_calculated : Bool
  churn_source_benchmark : Bool
  cac_source_calculated : Bool
deriving DecidableEq, Repr

/-- ARPU resolution (lines 513-518): use the provided value, else derive it
from revenue and customer count, else raise the missing-input `ValueError`. -/
def resolveArpu (arpuArg : Option ℚ) (total_customers : ℤ) (revenue : ℚ) :
    Except PyErr ℚ :=
  match arpuArg with
  | some a => Except.ok a
  | none =>
      if 0 < total_customers ∧ 0 < revenue then
        Except.ok (revenue / (total_customers : ℚ))
      else
        Except.error PyErr.valueError

/-- The computational core of `build_cbcv_model` (lines 497-643).  Note that
the `assumptions` record (lines 598-611) computes `revenue / total_customers`
unconditionally in its `arpu_source` entry. -/
def build_cbcv_model_core (fin : CbcvFinancialInputs) (churn_benchmark : ℚ)
    (total_customers : ℤ) (arpuArg : Option ℚ) (churnArg : Option ℚ)
    (cacArg : Option ℚ) (newCustomersArg : Option ℤ) (projection_years : ℕ)
    (tam : Option ℤ) : Except PyErr CbcvCore := do
  let arpu ← resolveArpu arpuArg total_customers fin.revenue
  let churn_rate := churnArg.getD churn_benchmark
  let retention_rate := 1 - churn_rate
  let cac :=
    match cacArg with
    | some c => c
    | none =>
        if (match newCustomersArg with
            | some n => decide (0 < n)
            | none => false) && decide (0 < fin.sm_expense) then
          calculate_cac fin.sm_expense (newCustomersArg.getD 0)
        else arpu * fin.gross_margin
  let new_customers :=
    match newCustomersArg with
    | some n => n
    | none => pyInt ((total_customers : ℚ) * (1/10))
  let clv ← calculate_clv arpu fin.gross_margin retention_rate fin.wacc
  let ltv_cac_ratio := if 0 < cac then some (clv / cac) else none
  let payback_months := calculate_payback_months cac arpu fin.gross_margin
  let existing_ce := calculate_existing_customer_equity total_customers clv
  let (future_ce, projected_acquisition) ← calculate_future_customer_equity
      new_customers clv cac fin.wacc projection_years (1/10) tam total_customers
  let total_ce := existing_ce + future_ce
  let enterprise_value := total_ce
  let equity_value := enterprise_value - fin.net_debt
  let intrinsic_value := if 0 < fin.shares_outstanding then
      equity_value / fin.shares_outstanding else 0
  let upside := if 0 < fin.current_price then
      (intrinsic_value - fin.current_price) / fin.current_price * 100 else 0
  let projected_customers :=
      total_customers :: projectCustomers retention_rate total_customers
        projected_acquisition
  let projected_revenue := projected_customers.map (fun c => (c : ℚ) * arpu)
  let sens ← build_sensitivity_matrix clv arpu fin.gross_margin retention_rate fin.wacc
  let arpuQuotient ← pydiv fin.revenue (total_customers : ℚ)
  let arpu_source_calculated := decide (arpu = arpuQuotient)
  let churn_source_benchmark := decide (churn_rate = churn_benchmark)
  let cac_source_calculated := (new_customers != 0) && (fin.sm_expense != 0)
  .ok { arpu := arpu
        churn_rate := churn_rate
        retention_rate := retention_rate
        cac := cac
        clv := clv
        ltv_cac_ratio := ltv_cac_ratio
        payback_months := payback_months
        existing_customer_equity := existing_ce
        future_customer_equity := future_ce
        total_customer_equity := total_ce
        enterprise_value := enterprise_value
        equity_value := equity_value
        intrinsic_value_per_share := intrinsic_value
        upside_percentage := upside
        projected_customers := projected_customers
        projected_revenue := projected_revenue
        projected_acquisition := projected_acquisition
        sensitivity_matrix := sens
        arpu_source_calculated := arpu_source_calculated
        churn_source_benchmark := churn_source_benchmark
        cac_source_calculated := cac_source_calculated }

/-! ## `boss_agent._parse_review_response` (boss_agent.py lines 143-171) -/

/-- The structured review record produced by a review (the parsed JSON dict or
the substituted failure record). -/
structure ParsedReview where
  approved : Bool
  overall_score : ℚ
  scores : List (String × ℚ)
  feedback : String
  strengths : List String
  improvements_needed : List String
  parse_error : Bool
deriving DecidableEq, Repr

/-- The opening-brace character. -/
def lbraceChar : Char := Char.ofNat 123

/-- The closing-brace character. -/
def rbraceChar : Char := Char.ofNat 125

/-- The effect of `re.search(r'\x7b[\s\S]*\x7d', response_text)`: the greedy
leftmost match runs from the first opening brace to the last closing brace of
the whole text, and exists exactly when some closing brace comes strictly
after the first opening brace. -/
def jsonExtract (s : String) : Option String :=
  let cs := s.data
  match cs.findIdx? (fun c => c = lbraceChar), cs.reverse.findIdx? (fun c => c = rbraceChar) with
  | some i, some k =>
      let j := cs.length - 1 - k
      if i < j then some (String.mk ((cs.drop i).take (j - i + 1))) else none
  | _, _ => none

/-- The substituted failure verdict (source lines 162-171). -/
def defaultParseFailure (response_text : String) : ParsedReview :=
  { approved := false
    overall_score := 0
    scores := []
    feedback := "Failed to parse review response. Raw response: " ++ response_text.take 500
    strengths := []
    improvements_needed := ["Review response was not in expected JSON format"]
    parse_error := true }

/-- `_parse_review_response`.  `jsonLoads` abstracts `json.loads` restricted
to the expected record shape: `none` models `json.JSONDecodeError` (caught by
the source) and any result that is not the structured verdict record.  The
Lean function is total: the parse step never raises. -/
def parse_review_response (jsonLoads : String → Option ParsedReview)
    (response_text : String) : ParsedReview :=
  match jsonExtract response_text with
  | some sub =>
      match jsonLoads sub with
      | some r => r
      | none => defaultParseFailure response_text
  | none => defaultParseFailure response_text

/-! ## `agents_workflow.run_agents_workflow` (agents_workflow.py lines 65-210)

The producer (`FinancialModelingAgent.analyze` / `.refine`) and the reviewer
(`BossAgent._review_analyst_report`) are external LLM calls; they enter the
embedding as parameters.  The reviewer is indexed by its call count so that an
arbitrary sequence of verdicts can be produced.  The PDF/Drive uploads carry
no data relevant to the loop and are dropped; the list of produced analyses
(`analysis_urls` traceability) is kept. -/

/-- `BossAgent.MAX_ITERATIONS` (boss_agent.py line 97). -/
def MAX_ITERATIONS : ℕ := 2

/-- The dict returned by `run_agents_workflow` (upload fields omitted),
extended with the reviewer/producer call counts being verified. -/
structure WorkflowResult where
  final_analysis : String
  approved : Bool
  iterations : ℕ
  review_history : List ParsedReview
  produced_analyses : List String
  reviewer_calls : ℕ
  producer_calls : ℕ

/-- Assembly of the result dict (source lines 172-182): `approved` is the
last review's verdict, or `False` when no review ran. -/
def finishWorkflow (iteration : ℕ) (current : String) (history : List ParsedReview)
    (produced : List String) (reviewer_calls producer_calls : ℕ) : WorkflowResult :=
  { final_analysis := current
    approved := (history.getLast?).elim false (fun r => r.approved)
    iterations := iteration
    review_history := history
    produced_analyses := produced
    reviewer_calls := reviewer_calls
    producer_calls := producer_calls }

/-- The `while iteration < MAX_ITERATIONS` loop (source lines 133-170).  The
first argument is the number of remaining permitted iterations
(`MAX_ITERATIONS - iteration`), which the while-guard makes a structural
bound; the in-loop `iteration >= MAX_ITERATIONS` check is kept literally. -/
def agentsLoop (reviews : ℕ → ParsedReview) (refine : String → String → String) :
    ℕ → ℕ → String → List ParsedReview → List String → ℕ → ℕ → WorkflowResult
  | 0, iteration, current, history, produced, rc, pc =>
      finishWorkflow iteration current history produced rc pc
  | fuel + 1, iteration, current, history, produced, rc, pc =>
      let iteration' := iteration + 1
      let review := reviews rc
      let history' := history ++ [review]
      let rc' := rc + 1
      if review.approved then
        finishWorkflow iteration' current history' produced rc' pc
      else if MAX_ITERATIONS ≤ iteration' then
        finishWorkflow iteration' current history' produced rc' pc
      else
        let refined := refine review.feedback current
        agentsLoop reviews refine fuel iteration' refined history'
          (produced ++ [refined]) rc' (pc + 1)

/-- `run_agents_workflow`: one `analyze` call producing `initial_analysis`,
then the review-refine loop. -/
def run_agents_workflow (reviews : ℕ → ParsedReview)
    (initial_analysis : String) (refine : String → String → String) : WorkflowResult :=
  agentsLoop reviews refine MAX_ITERATIONS 0 initial_analysis [] [initial_analysis] 0 1

/-! # Theorems -/

/-! ## C1: terminal value error behaviour -/

/-- C1 (counterexample): the claim "strictly positive for WACC > growth and
positive final cash flow" fails at `final_fcf = 100`, `g = -2`, `wacc = 0`:
the precondition WACC > g holds and the final cash flow is positive, yet the
returned value is `-50`, not strictly positive. -/
theorem c1_counterexample :
    calculate_terminal_value 100 (-2) 0 = .ok (-50) ∧ ¬ (0 < (-50 : ℚ)) := by
  constructor
  · norm_num [calculate_terminal_value]
  · norm_num

/-- C1 (amended): `calculate_terminal_value` fails with the invalid-input
error exactly when `wacc ≤ g`; for `wacc > g` it returns
`final_fcf * (1 + g) / (wacc - g)`, which is strictly positive whenever the
final cash flow is strictly positive and additionally `g > -1` (a growth rate
above -100 percent). -/
theorem c1_terminal_value (final_fcf perpetual_growth wacc : ℚ) :
    (wacc ≤ perpetual_growth →
      calculate_terminal_value final_fcf perpetual_growth wacc = .error .valueError) ∧
    (perpetual_growth < wacc →
      calculate_terminal_value final_fcf perpetual_growth wacc =
        .ok (final_fcf * (1 + perpetual_growth) / (wacc - perpetual_growth)) ∧
      (0 < final_fcf → -1 < perpetual_growth →
        0 < final_fcf * (1 + perpetual_growth) / (wacc - perpetual_growth))) := by
  constructor
  · intro h
    simp [calculate_terminal_value, h]
  · intro h
    constructor
    · simp [calculate_terminal_value, not_le.mpr h]
    · intro hf hg
      apply div_pos
      · have : 0 < 1 + perpetual_growth := by linarith
        exact mul_pos hf this
      · linarith

/-! ## C9: WACC is a convex combination -/

/-- C9: the breakdown returned by `calculate_wacc` satisfies
`equity_weight + debt_weight = 1`, the WACC is exactly
`equity_weight * cost_of_equity + debt_weight * after_tax_cost_of_debt`, and
whenever the debt weight lies in [0,1] the WACC lies between the after-tax
cost of debt and the cost of equity. -/
theorem c9_wacc_convex (beta risk_free_rate market_premium : ℚ)
    (debt_ratio : Option ℚ) (cost_of_debt tax_rate : ℚ) (ttm : Option ℚ) :
    (calculate_wacc beta risk_free_rate market_premium debt_ratio cost_of_debt
        tax_rate ttm).equity_weight +
      (calculate_wacc beta risk_free_rate market_premium debt_ratio cost_of_debt
        tax_rate ttm).debt_weight = 1 ∧
    (calculate_wacc beta risk_free_rate market_premium debt_ratio cost_of_debt
        tax_rate ttm).wacc =
      (calculate_wacc beta risk_free_rate market_premium debt_ratio cost_of_debt
        tax_rate ttm).equity_weight *
        (calculate_wacc beta risk_free_rate market_premium debt_ratio cost_of_debt
          tax_rate ttm).cost_of_equity +
      (calculate_wacc beta risk_free_rate market_premium debt_ratio cost_of_debt
        tax_rate ttm).debt_weight *
        (calculate_wacc beta risk_free_rate market_premium debt_ratio cost_of_debt
          tax_rate ttm).after_tax_cost_of_debt ∧
    (0 ≤ (calculate_wacc beta risk_free_rate market_premium debt_ratio cost_of_debt
        tax_rate ttm).debt_weight →
      (calculate_wacc beta risk_free_rate market_premium debt_ratio cost_of_debt
        tax_rate ttm).debt_weight ≤ 1 →
      min (calculate_wacc beta risk_free_rate market_premium debt_ratio cost_of_debt
          tax_rate ttm).after_tax_cost_of_debt
        (calculate_wacc beta risk_free_rate market_premium debt_ratio cost_of_debt
          tax_rate ttm).cost_of_equity ≤
        (calculate_wacc beta risk_free_rate market_premium debt_ratio cost_of_debt
          tax_rate ttm).wacc ∧
      (calculate_wacc beta risk_free_rate market_premium debt_ratio cost_of_debt
        tax_rate ttm).wacc ≤
        max (calculate_wacc beta risk_free_rate market_premium debt_ratio cost_of_debt
            tax_rate ttm).after_tax_cost_of_debt
          (calculate_wacc beta risk_free_rate market_premium debt_ratio cost_of_debt
            tax_rate ttm).cost_of_equity) := by
  simp only [calculate_wacc]
  refine ⟨by ring_nf, by ring_nf, ?_⟩
  intro h0 h1
  set d := (match debt_ratio with
    | some dd => dd
    | none => ttm.getD (3/10)) with hd
  set coe := risk_free_rate + beta * market_premium with hcoe
  set atcd := cost_of_debt * (1 - tax_rate) with hatcd
  constructor
  · rcases le_total atcd coe with h | h
    · rw [min_eq_left h]
      nlinarith
    · rw [min_eq_right h]
      nlinarith
  · rcases le_total atcd coe with h | h
    · rw [max_eq_right h]
      nlinarith
    · rw [max_eq_left h]
      nlinarith

/-! ## C8: value-destructive acquisition is never credited -/

/-- C8: whenever `clv ≤ cac`, the future customer equity is exactly zero and
every projected yearly acquisition (hence every year's value contribution) is
zero, for every acquisition rate, decay, TAM, discount rate and horizon. -/
theorem c8_clv_le_cac_zero (annual_new_customers : ℤ) (clv cac discount_rate : ℚ)
    (projection_years : ℕ) (acquisition_decay : ℚ) (tam : Option ℤ)
    (current_customers : ℤ) (h : clv ≤ cac) :
    calculate_future_customer_equity annual_new_customers clv cac discount_rate
        projection_years acquisition_decay tam current_customers =
      .ok (0, List.replicate projection_years 0) := by
  simp [calculate_future_customer_equity, h]

/-- C8 witness at a concrete input. -/
theorem c8_witness :
    calculate_future_customer_equity 500 2 3 (1/10) 4 (1/10) none 100 =
      .ok (0, List.replicate 4 0) :=
  c8_clv_le_cac_zero 500 2 3 (1/10) 4 (1/10) none 100 (by norm_num)

/-! ## C4: review-response parsing never crashes the loop -/

/-- C4: `parse_review_response` (a total function, so the parse step never
raises) substitutes the conservative failure verdict — not approved, overall
score zero, diagnostic feedback echoing the first 500 characters of the raw
text — whenever the brace extraction or the JSON decoding of the reviewer
text fails, and returns the parsed record unchanged whenever both succeed. -/
theorem c4_parse_review_response (jsonLoads : String → Option ParsedReview)
    (response_text : String) :
    ((jsonExtract response_text = none ∨
        ∃ sub, jsonExtract response_text = some sub ∧ jsonLoads sub = none) →
      parse_review_response jsonLoads response_text = defaultParseFailure response_text ∧
      (parse_review_response jsonLoads response_text).approved = false ∧
      (parse_review_response jsonLoads response_text).overall_score = 0 ∧
      (parse_review_response jsonLoads response_text).feedback =
        "Failed to parse review response. Raw response: " ++ response_text.take 500) ∧
    (∀ sub r, jsonExtract response_text = some sub → jsonLoads sub = some r →
      parse_review_response jsonLoads response_text = r) := by
  constructor
  · rintro (h | ⟨sub, hs, hl⟩)
    · simp [parse_review_response, h, defaultParseFailure]
    · simp [parse_review_response, hs, hl, defaultParseFailure]
  · intro sub r hs hl
    simp [parse_review_response, hs, hl]

/-! ## C2: the review-refine controller is bounded -/

/-- C2: for every sequence of reviewer verdicts, the workflow terminates (it
is a total function of its inputs), calls the reviewer at most
`MAX_ITERATIONS` times and the producer (the initial `analyze` plus all
`refine` calls) at most `MAX_ITERATIONS + 1` times; and when no review in the
permitted iterations approves, the returned record has `approved = false` and
its final analysis is the last-produced analysis (the refinement of the first
round of feedback). -/
theorem c2_workflow_bounded (reviews : ℕ → ParsedReview) (initial_analysis : String)
    (refine : String → String → String) :
    (run_agents_workflow reviews initial_analysis refine).reviewer_calls ≤ MAX_ITERATIONS ∧
    (run_agents_workflow reviews initial_analysis refine).producer_calls ≤ MAX_ITERATIONS + 1 ∧
    ((∀ i, i < MAX_ITERATIONS → (reviews i).approved = false) →
      (run_agents_workflow reviews initial_analysis refine).approved = false ∧
      (run_agents_workflow reviews initial_analysis refine).final_analysis =
        refine (reviews 0).feedback initial_analysis ∧
      (run_agents_workflow reviews initial_analysis refine).produced_analyses.getLast? =
        some (run_agents_workflow reviews initial_analysis refine).final_analysis) := by
  by_cases h0 : (reviews 0).approved
  · refine ⟨?_, ?_, ?_⟩ <;>
      simp [run_agents_workflow, MAX_ITERATIONS, agentsLoop, finishWorkflow, h0]
    exact ⟨0, by norm_num, h0⟩
  · by_cases h1 : (reviews 1).approved
    · refine ⟨?_, ?_, ?_⟩ <;>
        simp [run_agents_workflow, MAX_ITERATIONS, agentsLoop, finishWorkflow, h0, h1]
      exact ⟨1, by norm_num, h1⟩
    · refine ⟨?_, ?_, ?_⟩ <;>
        simp [run_agents_workflow, MAX_ITERATIONS, agentsLoop, finishWorkflow, h0, h1]

/-- C2 witness: the bounds and the exhaustion outcome at a concrete
always-rejecting reviewer. -/
theorem c2_witness :
    (run_agents_workflow (fun _ => defaultParseFailure "x") "a"
        (fun f c => c ++ f)).reviewer_calls ≤ MAX_ITERATIONS ∧
    (run_agents_workflow (fun _ => defaultParseFailure "x") "a"
        (fun f c => c ++ f)).approved = false := by
  refine ⟨(c2_workflow_bounded (fun _ => defaultParseFailure "x") "a"
      (fun f c => c ++ f)).1, ?_⟩
  exact ((c2_workflow_bounded (fun _ => defaultParseFailure "x") "a"
      (fun f c => c ++ f)).2.2 (fun i _ => by simp [defaultParseFailure])).1

/-! ## C5: cash-flow projection -/

/-- The projection loop produces one value per year when enough rates are
supplied. -/
theorem projLoop_length : ∀ (n : ℕ) (cur : ℚ) (rs : List ℚ), n ≤ rs.length →
    (projLoop cur n rs).length = n
  | 0, _, _, _ => rfl
  | n + 1, cur, [], h => by simp at h
  | n + 1, cur, r :: rs, h => by
      simp only [projLoop, List.length_cons]
      rw [projLoop_length n (cur * (1 + r)) rs (by simpa using h)]

/-- Each projected value compounds from the previous one with its year's
rate. -/
theorem projLoop_getD : ∀ (n : ℕ) (cur : ℚ) (rs : List ℚ), n ≤ rs.length →
    ∀ i, i < n →
      (projLoop cur n rs).getD i 0 =
        (if i = 0 then cur else (projLoop cur n rs).getD (i - 1) 0) * (1 + rs.getD i 0)
  | 0, _, _, _, i, hi => by omega
  | n + 1, cur, [], h, i, hi => by simp at h
  | n + 1, cur, r :: rs, h, 0, hi => by simp [projLoop]
  | n + 1, cur, r :: rs, h, i + 1, hi => by
      have hlen : n ≤ rs.length := by simpa using h
      have ih := projLoop_getD n (cur * (1 + r)) rs hlen i (by omega)
      simp only [projLoop, List.getD_cons_succ, List.getD_cons_zero]
      rw [ih]
      cases i with
      | zero => simp [projLoop]
      | succ j => simp

/-- With a broadcast single rate, the final projected value is
`cur * (1 + r) ^ (n + 1)`. -/
theorem projLoop_replicate_last : ∀ (n : ℕ) (cur r : ℚ),
    (projLoop cur (n + 1) (List.replicate (n + 1) r)).getD n 0 = cur * (1 + r) ^ (n + 1)
  | 0, cur, r => by simp [projLoop]
  | n + 1, cur, r => by
      have ih := projLoop_replicate_last n (cur * (1 + r)) r
      simp only [projLoop, List.replicate_succ, List.getD_cons_succ] at ih ⊢
      rw [ih]
      ring

/-- C5: for every base cash flow, horizon `years ≥ 1` and growth input that is
either a single rate or a non-empty rate list, `project_free_cash_flows`
returns exactly `years` values, each compounding from the previous year's
value through the effective rate schedule; a single rate is broadcast to all
years (so the final value is `base * (1 + r) ^ years` exactly), and a
non-empty list shorter than the horizon is extended by repeating its last
supplied rate. -/
theorem c5_project_free_cash_flows (base_fcf : ℚ) (growth_rates : GrowthRates)
    (years : ℕ) (hy : 1 ≤ years)
    (hne : ∀ rs, growth_rates = GrowthRates.ofList rs → rs ≠ []) :
    ∃ rates l,
      growthSchedule growth_rates years = .ok rates ∧
      project_free_cash_flows base_fcf growth_rates years = .ok l ∧
      years ≤ rates.length ∧
      l.length = years ∧
      (∀ i, i < years →
        l.getD i 0 = (if i = 0 then base_fcf else l.getD (i - 1) 0) * (1 + rates.getD i 0)) ∧
      (∀ r, growth_rates = .single r →
        rates = List.replicate years r ∧
        l.getD (years - 1) 0 = base_fcf * (1 + r) ^ years) ∧
      (∀ rs, ∀ h : growth_rates = .ofList rs, rs.length < years →
        rates = rs ++ List.replicate (years - rs.length) (rs.getLast (hne rs h))) := by
  cases growth_rates with
  | single r =>
      refine ⟨List.replicate years r, projLoop base_fcf years (List.replicate years r),
        rfl, rfl, by simp, projLoop_length years base_fcf _ (by simp), ?_, ?_, ?_⟩
      · exact projLoop_getD years base_fcf _ (by simp)
      · intro r' hr
        cases hr
        refine ⟨rfl, ?_⟩
        obtain ⟨k, rfl⟩ : ∃ k, years = k + 1 := ⟨years - 1, by omega⟩
        simpa using projLoop_replicate_last k base_fcf r
      · intro rs h
        cases h
  | ofList rs =>
      have hrs : rs ≠ [] := hne rs rfl
      by_cases hlen : rs.length < years
      · have hsched : growthSchedule (.ofList rs) years =
            .ok (rs ++ List.replicate (years - rs.length) (rs.getLast hrs)) := by
          simp only [growthSchedule, if_pos hlen,
            List.getLast?_eq_getLast_of_ne_nil hrs]
        have hlen2 : years ≤ (rs ++ List.replicate (years - rs.length)
            (rs.getLast hrs)).length := by
          simp
          omega
        refine ⟨_, projLoop base_fcf years _, hsched, ?_, hlen2,
          projLoop_length years base_fcf _ hlen2,
          projLoop_getD years base_fcf _ hlen2, ?_, ?_⟩
        · simp only [project_free_cash_flows, hsched]
          rfl
        · intro r' hr
          cases hr
        · intro rs' h hlt
          cases h
          rfl
      · have hsched : growthSchedule (.ofList rs) years = .ok rs := by
          simp only [growthSchedule, if_neg hlen]
        have hlen2 : years ≤ rs.length := by omega
        refine ⟨rs, projLoop base_fcf years rs, hsched, ?_, hlen2,
          projLoop_length years base_fcf rs hlen2,
          projLoop_getD years base_fcf rs hlen2, ?_, ?_⟩
        · simp only [project_free_cash_flows, hsched]
          rfl
        · intro r' hr
          cases hr
        · intro rs' h hlt
          cases h
          omega

/-- C5 witness: the projector applied at `base = 100`, rates `[1/10]`,
3 years. -/
theorem c5_witness :
    ∃ l, project_free_cash_flows 100 (GrowthRates.ofList [1/10]) 3 = .ok l ∧
      l.length = 3 := by
  obtain ⟨rates, l, -, hp, -, hl, -⟩ :=
    c5_project_free_cash_flows 100 (GrowthRates.ofList [1/10]) 3 (by norm_num)
      (fun rs h => by cases h; simp)
  exact ⟨l, hp, hl⟩

/-! ## C6 and C7: the CBCV future-acquisition trajectory -/

/-- Reduction of a bind on a successful `Except` value. -/
theorem exceptOkBind {ε α β : Type} (a : α) (f : α → Except ε β) :
    (Except.ok a : Except ε α) >>= f = f a := rfl

/-- Reduction of a bind on a failed `Except` value. -/
theorem exceptErrorBind {ε α β : Type} (e : ε) (f : α → Except ε β) :
    (Except.error e : Except ε α) >>= f = .error e := rfl

/-- `pyInt` of an integer is that integer. -/
theorem pyInt_intCast (n : ℤ) : pyInt (n : ℚ) = n := by
  unfold pyInt
  split <;> simp

/-- The acquisition chain of `fceLoop` with no TAM: the entry at position
`i + 1` is the truncation of the previous entry times
`(1 - decay) ^ (year + i)`, where `year` is the loop year of the first
produced entry. -/
theorem fceLoop_chain (vpc discount_rate decay : ℚ) :
    ∀ (n year : ℕ) (cumulative current : ℤ) (acc total : ℚ) (l : List ℤ),
      fceLoop vpc discount_rate decay none n year cumulative current acc
        = .ok (total, l) →
      l.length = n ∧
      (0 < n → l.getD 0 0 = pyInt ((current : ℚ) * (1 - decay) ^ (year - 1))) ∧
      (∀ i, i + 1 < n → l.getD (i + 1) 0 =
        pyInt (((l.getD i 0 : ℤ) : ℚ) * (1 - decay) ^ (year + i))) := by
  intro n
  induction n with
  | zero =>
      intro year cumulative current acc total l h
      simp only [fceLoop] at h
      cases h
      simp
  | succ n ih =>
      intro year cumulative current acc total l h
      simp only [fceLoop, pyTruthyInt, Bool.false_and, Bool.false_eq_true, if_false,
        Option.getD_none] at h
      rcases hpv : pydiv ((pyInt ((current : ℚ) * (1 - decay) ^ (year - 1)) : ℚ) * vpc)
          ((1 + discount_rate) ^ year) with e | pv
      · rw [hpv, exceptErrorBind] at h
        cases h
      rw [hpv, exceptOkBind] at h
      rcases hrec : fceLoop vpc discount_rate decay none n (year + 1)
          (cumulative + pyInt ((current : ℚ) * (1 - decay) ^ (year - 1)))
          (pyInt ((current : ℚ) * (1 - decay) ^ (year - 1))) (acc + pv)
          with e | p
      · rw [hrec, exceptErrorBind] at h
        cases h
      rw [hrec, exceptOkBind] at h
      obtain ⟨total', l'⟩ := p
      cases h
      obtain ⟨ihlen, ihhead, ihchain⟩ := ih (year + 1) _ _ _ _ _ hrec
      refine ⟨by simp [ihlen], fun _ => by simp, ?_⟩
      intro i hi
      cases i with
      | zero =>
          have h0 : 0 < n := by omega
          have := ihhead h0
          simpa using this
      | succ j =>
          have hj : j + 1 < n := by omega
          have := ihchain j hj
          have harith : year + 1 + j = year + (j + 1) := by omega
          rw [harith] at this
          simpa using this

/-- C6 (counterexample): with 1000 initial acquisitions, decay 10 percent, no
TAM, CLV 2, CAC 1 and zero discount over 3 years, the projected acquisitions
are `[1000, 900, 729]` — the year-3 value is `int(900 * 0.9 ^ 2) = 729`, not
the `int(900 * 0.9) = 810` that a single geometric decay step from the prior
year's actual acquisition would give. -/
theorem c6_counterexample :
    calculate_future_customer_equity 1000 2 1 0 3 (1/10) none 0 =
      .ok (2629, [1000, 900, 729]) ∧
    ¬ (([1000, 900, 729] : List ℤ).getD 2 0 =
        pyInt ((([1000, 900, 729] : List ℤ).getD 1 0 : ℚ) * (1 - 1/10))) := by
  constructor
  · norm_num [calculate_future_customer_equity, fceLoop, pydiv, pyInt, pyTruthyInt,
      exceptOkBind]
  · norm_num [pyInt]

/-- C6 (amended): with no TAM cap and value-creating acquisition
(`cac < clv`), each projected acquisition after the first equals the prior
year's actual acquisition multiplied by `(1 - decay) ^ (year - 1)` — the
decay exponent grows with the year index — and then truncated; so decay
compounds doubly on the realized trajectory rather than by the single
`(1 - decay)` factor per year that the claim states.  (The first year's
acquisition is the input rate itself.) -/
theorem c6_acquisition_decay (annual_new_customers : ℤ) (clv cac discount_rate : ℚ)
    (projection_years : ℕ) (acquisition_decay : ℚ) (current_customers : ℤ)
    (hv : cac < clv) (total : ℚ) (l : List ℤ)
    (h : calculate_future_customer_equity annual_new_customers clv cac discount_rate
        projection_years acquisition_decay none current_customers = .ok (total, l)) :
    l.length = projection_years ∧
    (0 < projection_years → l.getD 0 0 = annual_new_customers) ∧
    (∀ i, i + 1 < projection_years →
      l.getD (i + 1) 0 =
        pyInt (((l.getD i 0 : ℤ) : ℚ) * (1 - acquisition_decay) ^ (i + 1))) := by
  unfold calculate_future_customer_equity at h
  rw [if_neg (not_le.mpr hv)] at h
  obtain ⟨hlen, hhead, hchain⟩ := fceLoop_chain (clv - cac) discount_rate
    acquisition_decay projection_years 1 current_customers annual_new_customers 0
    total l h
  refine ⟨hlen, ?_, ?_⟩
  · intro hy
    have := hhead hy
    simpa [pyInt_intCast] using this
  · intro i hi
    have := hchain i hi
    have harith : 1 + i = i + 1 := by omega
    rwa [harith] at this

/-- `getD` on a list of zeros is zero. -/
theorem getD_replicate_zero : ∀ (n j : ℕ), (List.replicate n (0 : ℤ)).getD j 0 = 0
  | 0, _ => by simp
  | n + 1, 0 => by simp
  | n + 1, j + 1 => by
      simp only [List.replicate_succ, List.getD_cons_succ]
      exact getD_replicate_zero n j

/-- TAM invariant of `fceLoop`: starting from a cumulative count at or below a
positive cap `T`, every prefix of the produced acquisitions keeps the
cumulative count at or below `T`, and from any point where the cumulative
count has reached `T` every later acquisition is zero. -/
theorem fceLoop_tam (vpc discount_rate decay : ℚ) (T : ℤ) (hT : 0 < T) :
    ∀ (n year : ℕ) (cumulative current : ℤ) (acc total : ℚ) (l : List ℤ),
      cumulative ≤ T →
      fceLoop vpc discount_rate decay (some T) n year cumulative current acc
        = .ok (total, l) →
      (∀ k, cumulative + (l.take k).sum ≤ T) ∧
      (∀ k, T ≤ cumulative + (l.take k).sum → ∀ j, k ≤ j → l.getD j 0 = 0) := by
  intro n
  induction n with
  | zero =>
      intro year cumulative current acc total l hcum h
      simp only [fceLoop] at h
      cases h
      refine ⟨fun k => by simpa using hcum, fun k hk j hj => by simp⟩
  | succ n ih =>
      intro year cumulative current acc total l hcum h
      have htt : pyTruthyInt (some T) = true := by
        simp only [pyTruthyInt, bne_iff_ne, ne_eq]
        omega
      simp only [fceLoop, htt, Bool.true_and, if_true, Option.getD_some,
        decide_eq_true_eq] at h
      set ya := max 0 (min (pyInt (((if T ≤ cumulative then (0 : ℤ) else current) : ℤ) *
        (1 - decay) ^ (year - 1) : ℚ)) (T - cumulative)) with hya
      have hya0 : 0 ≤ ya := le_max_left _ _
      have hyaT : ya ≤ T - cumulative := by
        rw [hya]
        exact max_le (by omega) (min_le_right _ _)
      rcases hpv : pydiv ((ya : ℚ) * vpc) ((1 + discount_rate) ^ year) with e | pv
      · rw [hpv, exceptErrorBind] at h
        cases h
      rw [hpv, exceptOkBind] at h
      rcases hrec : fceLoop vpc discount_rate decay (some T) n (year + 1)
          (cumulative + ya) ya (acc + pv) with e | p
      · rw [hrec, exceptErrorBind] at h
        cases h
      rw [hrec, exceptOkBind] at h
      obtain ⟨total', l'⟩ := p
      cases h
      obtain ⟨P1, P2⟩ := ih (year + 1) (cumulative + ya) ya (acc + pv) total' l'
        (by omega) hrec
      constructor
      · intro k
        cases k with
        | zero => simpa using hcum
        | succ k =>
            have := P1 k
            simp only [List.take_succ_cons, List.sum_cons]
            omega
      · intro k hk j hj
        cases k with
        | zero =>
            have hceq : T ≤ cumulative := by simpa using hk
            have hya00 : ya = 0 := by omega
            cases j with
            | zero => simpa using hya00
            | succ j' =>
                have := P2 0 (by simp; omega) j' (by omega)
                simpa using this
        | succ k' =>
            cases j with
            | zero => omega
            | succ j' =>
                have hk' : T ≤ (cumulative + ya) + (l'.take k').sum := by
                  simp only [List.take_succ_cons, List.sum_cons] at hk
                  omega
                have := P2 k' hk' j' (by omega)
                simpa using this

/-- C7: with a positive TAM cap and a starting customer count at or below the
cap, the cumulative projected customer count (current customers plus all
projected acquisitions so far) never exceeds the TAM in any projected year,
and once the cumulative count has reached the cap every subsequent projected
acquisition is zero. -/
theorem c7_tam_never_exceeded (annual_new_customers : ℤ) (clv cac discount_rate : ℚ)
    (projection_years : ℕ) (acquisition_decay : ℚ) (T current_customers : ℤ)
    (hT : 0 < T) (hcur : current_customers ≤ T) (total : ℚ) (l : List ℤ)
    (h : calculate_future_customer_equity annual_new_customers clv cac discount_rate
        projection_years acquisition_decay (some T) current_customers
        = .ok (total, l)) :
    (∀ k, current_customers + (l.take k).sum ≤ T) ∧
    (∀ k, T ≤ current_customers + (l.take k).sum → ∀ j, k ≤ j → l.getD j 0 = 0) := by
  unfold calculate_future_customer_equity at h
  by_cases hcc : clv ≤ cac
  · rw [if_pos hcc] at h
    cases h
    constructor
    · intro k
      simp only [List.take_replicate, List.sum_replicate, smul_zero]
      omega
    · intro k hk j hj
      exact getD_replicate_zero projection_years j
  · rw [if_neg hcc] at h
    exact fceLoop_tam (clv - cac) discount_rate acquisition_decay T hT
      projection_years 1 current_customers annual_new_customers 0 total l hcur h

/-- C7 witness: a concrete projection that hits the cap (TAM 100, starting
from 0 customers, 50 initial acquisitions): acquisitions `[50, 45, 5]`. -/
theorem c7_witness :
    calculate_future_customer_equity 50 2 1 0 3 (1/10) (some 100) 0 =
      .ok (100, [50, 45, 5]) ∧
    (∀ k, (0 : ℤ) + (([50, 45, 5] : List ℤ).take k).sum ≤ 100) := by
  have hfce : calculate_future_customer_equity 50 2 1 0 3 (1/10) (some 100) 0 =
      .ok (100, [50, 45, 5]) := by
    norm_num [calculate_future_customer_equity, fceLoop, pydiv, pyInt, pyTruthyInt,
      exceptOkBind]
  exact ⟨hfce, (c7_tam_never_exceeded 50 2 1 0 3 (1/10) 100 0 (by norm_num)
    (by norm_num) 100 [50, 45, 5] hfce).1⟩

/-! ## C3: an invalid sensitivity-grid cell aborts the valuation -/

/-- A grid cell whose pair violates `w > g` raises the invalid-input error. -/
theorem sensCell_error (projected : List ℚ) (last shares net_debt w g : ℚ)
    (h : w ≤ g) :
    sensCell projected last shares net_debt w g = .error .valueError := by
  simp only [sensCell, calculate_terminal_value, if_pos h, exceptErrorBind]

/-- A growth row containing a violating cell errors as a whole. -/
theorem sensRow_error (projected : List ℚ) (last shares net_debt w : ℚ) :
    ∀ (gs : List ℚ) (g : ℚ), g ∈ gs → w ≤ g →
      ∃ e, sensRow projected last shares net_debt w gs = .error e := by
  intro gs
  induction gs with
  | nil => intro g hg; cases hg
  | cons g' gs' ih =>
      intro g hg hwg
      rcases hc : sensCell projected last shares net_debt w g' with e | c
      · exact ⟨e, by simp only [sensRow, hc, exceptErrorBind]⟩
      · rcases List.mem_cons.mp hg with rfl | hg'
        · rw [sensCell_error projected last shares net_debt w g hwg] at hc
          cases hc
        · obtain ⟨e, he⟩ := ih g hg' hwg
          exact ⟨e, by simp only [sensRow, hc, he, exceptOkBind, exceptErrorBind]⟩

/-- A grid containing a violating `(w, g)` pair errors as a whole. -/
theorem sensGrid_error (projected : List ℚ) (last shares net_debt : ℚ)
    (growthRange : List ℚ) :
    ∀ (ws : List ℚ) (w g : ℚ), w ∈ ws → g ∈ growthRange → w ≤ g →
      ∃ e, sensGrid projected last shares net_debt growthRange ws = .error e := by
  intro ws
  induction ws with
  | nil => intro w g hw; cases hw
  | cons w' ws' ih =>
      intro w g hw hg hwg
      rcases hr : sensRow projected last shares net_debt w' growthRange with e | row
      · exact ⟨e, by simp only [sensGrid, hr, exceptErrorBind]⟩
      · rcases List.mem_cons.mp hw with rfl | hw'
        · obtain ⟨e, he⟩ := sensRow_error projected last shares net_debt w
            growthRange g hg hwg
          rw [he] at hr
          cases hr
        · obtain ⟨e, he⟩ := ih w g hw' hg hwg
          exact ⟨e, by simp only [sensGrid, hr, he, exceptOkBind, exceptErrorBind]⟩

/-- C3 (counterexample): a valuation whose base case is fine (WACC 5 percent
above terminal growth 2.5 percent) but whose sensitivity corner cell
(WACC 3 percent against growth 3.5 percent) violates the precondition makes
`build_dcf_model_core` raise instead of returning a result. -/
theorem c3_counterexample :
    build_dcf_model_core
      { base_fcf := 100, growth_rate := 1/10, wacc := 1/20,
        terminal_growth_rate := 1/40, shares_outstanding := 50, net_debt := 0,
        current_price := 10, projection_years := 3 } = .error .valueError := by
  norm_num [build_dcf_model_core, project_free_cash_flows, growthSchedule, projLoop,
    calculate_terminal_value, calculate_intrinsic_value, discountLoop, pydiv,
    sensGrid, sensRow, sensCell, round2, exceptOkBind, exceptErrorBind]

/-- C3 (amended): whenever the smallest grid WACC (base WACC minus two
percentage points) does not exceed the largest grid growth rate (terminal
growth plus one percentage point) — in particular even when the base case
itself satisfies WACC > growth — the whole valuation aborts:
`build_dcf_model_core` returns an error and no DCF result. -/
theorem c3_grid_aborts (inp : DcfInputs)
    (hbad : inp.wacc - 1/50 ≤ inp.terminal_growth_rate + 1/100) :
    ∃ e, build_dcf_model_core inp = .error e := by
  unfold build_dcf_model_core
  have hproj : project_free_cash_flows inp.base_fcf (.single inp.growth_rate)
      inp.projection_years =
      .ok (projLoop inp.base_fcf inp.projection_years
        (List.replicate inp.projection_years inp.growth_rate)) := rfl
  rw [hproj, exceptOkBind]
  set P := projLoop inp.base_fcf inp.projection_years
    (List.replicate inp.projection_years inp.growth_rate) with hP
  rcases hlast : P.getLast? with _ | lastv
  · exact ⟨.indexError, by simp only [hlast, exceptErrorBind]⟩
  simp only [hlast, exceptOkBind]
  rcases hctv : calculate_terminal_value lastv inp.terminal_growth_rate inp.wacc
      with e | tv
  · exact ⟨e, by simp only [hctv, exceptErrorBind]⟩
  simp only [hctv, exceptOkBind]
  rcases hciv : calculate_intrinsic_value P tv inp.wacc inp.shares_outstanding
      inp.net_debt with e | val
  · exact ⟨e, by simp only [hciv, exceptErrorBind]⟩
  simp only [hciv, exceptOkBind]
  obtain ⟨e, he⟩ := sensGrid_error P lastv inp.shares_outstanding inp.net_debt
    [inp.terminal_growth_rate - 1/100, inp.terminal_growth_rate,
      inp.terminal_growth_rate + 1/100]
    [inp.wacc - 1/50, inp.wacc, inp.wacc + 1/50]
    (inp.wacc - 1/50) (inp.terminal_growth_rate + 1/100)
    (by simp) (by simp) hbad
  exact ⟨e, by simp only [he, exceptErrorBind]⟩

/-- C3 witness: the amended theorem applied at the counterexample's input. -/
theorem c3_witness :
    ∃ e, build_dcf_model_core
      { base_fcf := 100, growth_rate := 1/10, wacc := 1/20,
        terminal_growth_rate := 1/40, shares_outstanding := 50, net_debt := 0,
        current_price := 10, projection_years := 3 } = .error e :=
  c3_grid_aborts
    { base_fcf := 100, growth_rate := 1/10, wacc := 1/20,
      terminal_growth_rate := 1/40, shares_outstanding := 50, net_debt := 0,
      current_price := 10, projection_years := 3 } (by norm_num)

/-! ## C10: a zero customer count always crashes `build_cbcv_model` -/

/-- The only error `pydiv` raises is `ZeroDivisionError`. -/
theorem pydiv_error (a b : ℚ) (e : PyErr) (h : pydiv a b = .error e) :
    e = .zeroDivision := by
  unfold pydiv at h
  split at h
  · injection h with h1
    exact h1.symm
  · cases h

/-- Destructing a failing bind. -/
theorem exceptBind_error {ε α β : Type} (x : Except ε α) (f : α → Except ε β) (e : ε)
    (h : x >>= f = .error e) : x = .error e ∨ ∃ a, x = .ok a ∧ f a = .error e := by
  cases x with
  | error e' =>
      rw [exceptErrorBind] at h
      injection h with h1
      exact Or.inl (by rw [h1])
  | ok a =>
      rw [exceptOkBind] at h
      exact Or.inr ⟨a, rfl, h⟩

/-- Building a bind that fails with `ZeroDivisionError`. -/
theorem exceptBind_zero {α β : Type} (x : Except PyErr α) (f : α → Except PyErr β)
    (hx : ∀ e, x = .error e → e = .zeroDivision)
    (hf : ∀ a, x = .ok a → f a = .error .zeroDivision) :
    x >>= f = .error .zeroDivision := by
  cases x with
  | error e =>
      rw [exceptErrorBind, hx e rfl]
  | ok a =>
      rw [exceptOkBind]
      exact hf a rfl

/-- The only error `calculate_clv` raises is `ZeroDivisionError`. -/
theorem calculate_clv_error (arpu gross_margin retention_rate discount_rate : ℚ)
    (e : PyErr) (h : calculate_clv arpu gross_margin retention_rate discount_rate
      = .error e) : e = .zeroDivision := by
  simp only [calculate_clv] at h
  rcases exceptBind_error _ _ _ h with h1 | ⟨v, _, h2⟩
  · exact pydiv_error _ _ _ h1
  · cases h2

/-- The only error `fceLoop` raises is `ZeroDivisionError`. -/
theorem fceLoop_error (vpc discount_rate decay : ℚ) (tam : Option ℤ) :
    ∀ (n year : ℕ) (cumulative current : ℤ) (acc : ℚ) (e : PyErr),
      fceLoop vpc discount_rate decay tam n year cumulative current acc = .error e →
      e = .zeroDivision := by
  intro n
  induction n with
  | zero =>
      intro year cumulative current acc e h
      simp only [fceLoop] at h
      cases h
  | succ n ih =>
      intro year cumulative current acc e h
      simp only [fceLoop] at h
      rcases exceptBind_error _ _ _ h with h1 | ⟨pv, _, h2⟩
      · exact pydiv_error _ _ _ h1
      · rcases exceptBind_error _ _ _ h2 with h3 | ⟨p, _, h4⟩
        · exact ih _ _ _ _ _ h3
        · obtain ⟨t, r⟩ := p
          cases h4

/-- The only error `calculate_future_customer_equity` raises is
`ZeroDivisionError`. -/
theorem calculate_future_customer_equity_error (annual_new_customers : ℤ)
    (clv cac discount_rate : ℚ) (projection_years : ℕ) (acquisition_decay : ℚ)
    (tam : Option ℤ) (current_customers : ℤ) (e : PyErr)
    (h : calculate_future_customer_equity annual_new_customers clv cac discount_rate
        projection_years acquisition_decay tam current_customers = .error e) :
    e = .zeroDivision := by
  unfold calculate_future_customer_equity at h
  split at h
  · cases h
  · exact fceLoop_error _ _ _ _ _ _ _ _ _ _ h

/-- The only error `sensRetentionRow` raises is `ZeroDivisionError`. -/
theorem sensRetentionRow_error (arpu gross_margin test_retention discount_rate : ℚ) :
    ∀ (ds : List ℚ) (e : PyErr),
      sensRetentionRow arpu gross_margin test_retention discount_rate ds = .error e →
      e = .zeroDivision := by
  intro ds
  induction ds with
  | nil =>
      intro e h
      simp only [sensRetentionRow] at h
      cases h
  | cons d rest ih =>
      intro e h
      simp only [sensRetentionRow] at h
      rcases exceptBind_error _ _ _ h with h1 | ⟨v, _, h2⟩
      · exact calculate_clv_error _ _ _ _ _ h1
      · rcases exceptBind_error _ _ _ h2 with h3 | ⟨t, _, h4⟩
        · exact ih _ h3
        · cases h4

/-- The only error `cbcvSensGrid` raises is `ZeroDivisionError`. -/
theorem cbcvSensGrid_error (arpu gross_margin base_retention discount_rate : ℚ) :
    ∀ (rds : List ℚ) (e : PyErr),
      cbcvSensGrid arpu gross_margin base_retention discount_rate rds = .error e →
      e = .zeroDivision := by
  intro rds
  induction rds with
  | nil =>
      intro e h
      simp only [cbcvSensGrid] at h
      cases h
  | cons rd rest ih =>
      intro e h
      simp only [cbcvSensGrid] at h
      rcases exceptBind_error _ _ _ h with h1 | ⟨row, _, h2⟩
      · exact sensRetentionRow_error _ _ _ _ _ _ h1
      · rcases exceptBind_error _ _ _ h2 with h3 | ⟨t, _, h4⟩
        · exact ih _ h3
        · cases h4

/-- The only error `build_sensitivity_matrix` raises is `ZeroDivisionError`. -/
theorem build_sensitivity_matrix_error (base_clv arpu gross_margin base_retention
    discount_rate : ℚ) (e : PyErr)
    (h : build_sensitivity_matrix base_clv arpu gross_margin base_retention
        discount_rate = .error e) : e = .zeroDivision := by
  unfold build_sensitivity_matrix at h
  exact cbcvSensGrid_error _ _ _ _ _ _ h

/-- C10: `build_cbcv_model_core` with `total_customers = 0` never returns a
CBCV result, for every combination of the remaining inputs: with an ARPU
explicitly supplied it fails with `ZeroDivisionError` (the operative failure
is a division by zero — in the non-degenerate run it is the unconditional
`revenue / total_customers` of the assumptions record's `arpu_source` entry),
not the documented missing-input `ValueError`; without a supplied ARPU it
fails with the missing-input `ValueError`. -/
theorem c10_zero_customers_crash (fin : CbcvFinancialInputs) (churn_benchmark : ℚ)
    (churnArg : Option ℚ) (cacArg : Option ℚ) (newCustomersArg : Option ℤ)
    (projection_years : ℕ) (tam : Option ℤ) :
    (∀ a, build_cbcv_model_core fin churn_benchmark 0 (some a) churnArg cacArg
        newCustomersArg projection_years tam = .error .zeroDivision) ∧
    build_cbcv_model_core fin churn_benchmark 0 none churnArg cacArg
        newCustomersArg projection_years tam = .error .valueError := by
  constructor
  · intro a
    unfold build_cbcv_model_core
    apply exceptBind_zero
    · intro e he
      exact absurd he (by simp [resolveArpu])
    · intro arpu harpu
      have ha : a = arpu := by simpa [resolveArpu] using harpu
      subst ha
      apply exceptBind_zero
      · exact fun e he => calculate_clv_error _ _ _ _ e he
      · intro clv hclv
        apply exceptBind_zero
        · exact fun e he =>
            calculate_future_customer_equity_error _ _ _ _ _ _ _ _ e he
        · intro p hp
          obtain ⟨future_ce, acq⟩ := p
          apply exceptBind_zero
          · exact fun e he => build_sensitivity_matrix_error _ _ _ _ _ e he
          · intro sens hsens
            apply exceptBind_zero
            · exact fun e he => pydiv_error _ _ _ he
            · intro q hq
              exfalso
              simp [pydiv] at hq
  · unfold build_cbcv_model_core
    rw [(by simp [resolveArpu] :
        resolveArpu none 0 fin.revenue = Except.error PyErr.valueError),
      exceptErrorBind]

/-- C6 witness: the amended decay law checked on the concrete trajectory
`[1000, 900, 729]`. -/
theorem c6_witness :
    ([1000, 900, 729] : List ℤ).getD 1 0 =
      pyInt (((([1000, 900, 729] : List ℤ).getD 0 0 : ℤ) : ℚ) * (1 - 1/10) ^ 1) ∧
    ([1000, 900, 729] : List ℤ).getD 2 0 =
      pyInt (((([1000, 900, 729] : List ℤ).getD 1 0 : ℤ) : ℚ) * (1 - 1/10) ^ 2) := by
  have hfce : calculate_future_customer_equity 1000 2 1 0 3 (1/10) none 0 =
      .ok (2629, [1000, 900, 729]) := by
    norm_num [calculate_future_customer_equity, fceLoop, pydiv, pyInt, pyTruthyInt,
      exceptOkBind]
  have h := c6_acquisition_decay 1000 2 1 0 3 (1/10) 0 (by norm_num) 2629
    [1000, 900, 729] hfce
  exact ⟨h.2.2 0 (by norm_num), h.2.2 1 (by norm_num)⟩

/-- C10 witness: the zero-customer crash at a concrete financial record with
an explicitly supplied ARPU. -/
theorem c10_witness :
    build_cbcv_model_core
      { revenue := 1000, gross_margin := 1/2, sm_expense := 100,
        shares_outstanding := 10, current_price := 5, net_debt := 0,
        market_cap := 5000, wacc := 1/10 } (1/10) 0 (some 20) none none none 1 none
      = .error .zeroDivision :=
  (c10_zero_customers_crash
    { revenue := 1000, gross_margin := 1/2, sm_expense := 100,
      shares_outstanding := 10, current_price := 5, net_debt := 0,
      market_cap := 5000, wacc := 1/10 } (1/10) none none none 1 none).1 20
